import Mathlib

/-!
Shallow embedding of the Content Store Access Layer of the mac-board
repository (sources: `src/services/firebase/firestore.ts` and the admin
category service `services/admin/categories.ts`, the latter appearing in
the concatenated file `src/index.css` of this snapshot).

Modelling conventions:
* Firestore documents are Lean structures; the `posts` collection is an
  association list keyed by document id; the `settings/global-settings`
  document is an `Option SettingsDoc` (absent documents are `none`).
* `Timestamp` values are `Int` milliseconds since the epoch;
  `Timestamp.now()` is an explicit `now : Int` parameter.
* Async functions that can `throw` become functions into
  `Except String α`; an `Except.error` result models a thrown error and,
  by construction of each operation, implies that no write was performed
  (every modelled error path in the source precedes the write, or aborts
  the enclosing Firestore transaction, which then commits nothing).
* The ambient admin session consulted by `isAdminAuthenticated()` is an
  explicit `isAdmin : Bool` argument.
-/

namespace MacBoard

/-- `CategoryItem` of the admin category service: `{ id, name }`. -/
structure CategoryItem where
  id : String
  name : String
deriving DecidableEq, Repr

/-- The `settings/global-settings` document: a `categories` array field
(possibly absent, modelled as `Option`, read in the source as
`data().categories || []`) and an `updatedAt` timestamp. -/
structure SettingsDoc where
  categories : Option (List CategoryItem)
  updatedAt : Int
deriving DecidableEq, Repr

/-- A stored document of the `posts` collection, with the fields written
by the post service (`firestore.ts`). The document id is the key of the
association list holding it, not a field. -/
structure PostStored where
  title : String
  content : String
  category : String
  authorName : String
  authorId : String
  tags : List String
  createdAt : Int
  updatedAt : Int
  commentCount : Nat
  viewCount : Nat
deriving DecidableEq, Repr

/-- The slice of the Firestore database the category service touches:
the global settings document and the `posts` collection. -/
structure CatState where
  settings : Option SettingsDoc
  posts : List (String × PostStored)
deriving DecidableEq, Repr

/-- `settingsData.categories || []` (an absent array field reads as `[]`;
a present array, even empty, is truthy in JS and is kept). -/
def catsOf (sd : SettingsDoc) : List CategoryItem :=
  sd.categories.getD []

/-- The categories currently stored in a state (empty when the settings
document is missing; used only to phrase theorems). -/
def storedCats (s : CatState) : List CategoryItem :=
  match s.settings with
  | none => []
  | some sd => catsOf sd

/-- Firestore `arrayUnion(x)` on an array field: append `x` unless an
element structurally equal to `x` is already present. -/
def arrayUnion (l : List CategoryItem) (x : CategoryItem) : List CategoryItem :=
  if x ∈ l then l else l ++ [x]

/-- Firestore `arrayRemove(x)` on an array field: remove every element
structurally equal to `x`. -/
def arrayRemove (l : List CategoryItem) (x : CategoryItem) : List CategoryItem :=
  l.filter (fun y => y ≠ x)

/-- `ADMIN_AUTH_ERROR` of the category service. -/
def ADMIN_AUTH_ERROR : String := "관리자 권한이 필요합니다."

/-- `NOT_FOUND_ERROR` of the category service. -/
def NOT_FOUND_ERROR : String := "설정 데이터를 찾을 수 없습니다."

/-- Message of the system-category guard of `updateCategory`. -/
def SYSTEM_UPDATE_ERROR : String := "기본 시스템 카테고리는 수정할 수 없습니다."

/-- Message of the system-category guard of `deleteCategory`. -/
def SYSTEM_DELETE_ERROR : String := "기본 시스템 카테고리는 삭제할 수 없습니다."

/-- Message thrown by `addCategory` when the derived slug is empty. -/
def INVALID_SLUG_ERROR : String :=
  "유효한 카테고리 ID를 생성할 수 없습니다. 카테고리 이름을 확인해주세요."

/-- Duplicate-id message of `addCategory`. -/
def dupIdMsg (id : String) : String :=
  "ID '" ++ id ++ "'는 이미 사용 중입니다. 다른 카테고리 이름을 선택해주세요."

/-- Duplicate-name message of `addCategory` and `updateCategory`. -/
def dupNameMsg (n : String) : String :=
  "이름 '" ++ n ++ "'은(는) 이미 사용 중입니다. 다른 카테고리 이름을 선택해주세요."

/-- Unknown-category message of `updateCategory` / `deleteCategory`. -/
def catNotFoundMsg (id : String) : String :=
  "ID가 '" ++ id ++ "'인 카테고리를 찾을 수 없습니다."

/-- `reorderCategories` message for a currently stored id missing from
the candidate list. -/
def missingIdMsg (id : String) : String :=
  "카테고리 ID '" ++ id ++ "'가 누락되었습니다. 모든 기존 카테고리를 포함해야 합니다."

/-- `reorderCategories` message for a candidate id that is not currently
stored. -/
def unknownIdMsg (id : String) : String :=
  "카테고리 ID '" ++ id ++ "'는 기존에 존재하지 않습니다. 새 카테고리는 추가할 수 없습니다."

/-- The catch-all wrapper of `addCategory` (errors thrown inside its
`try` block are rethrown with this Korean ".. error occurred: " banner). -/
def wrapAdd (m : String) : String :=
  "카테고리 추가 중 오류가 발생했습니다: " ++ m

/-- The catch-all wrapper of `updateCategory`. -/
def wrapUpdate (m : String) : String :=
  "카테고리 수정 중 오류가 발생했습니다: " ++ m

/-- The catch-all wrapper of `deleteCategory`. -/
def wrapDelete (m : String) : String :=
  "카테고리 삭제 중 오류가 발생했습니다: " ++ m

/-- The catch-all wrapper of `reorderCategories`. -/
def wrapReorder (m : String) : String :=
  "카테고리 순서 변경 중 오류가 발생했습니다: " ++ m

/-- The catch-all wrapper of `fetchCategories`. -/
def wrapFetch (m : String) : String :=
  "카테고리 목록을 가져오는 중 오류가 발생했습니다: " ++ m

/-- The system-category condition of `updateCategory`/`deleteCategory`:
`categoryId === 'general' || categoryId === 'tech' || categoryId === 'questions'`. -/
def isSystemId (cid : String) : Bool :=
  cid == "general" || cid == "tech" || cid == "questions"

/-- A character kept verbatim by the slug regex `[^a-z0-9]`. -/
def isLowerAlnum (c : Char) : Bool :=
  (('a' ≤ c && c ≤ 'z') || ('0' ≤ c && c ≤ '9'))

/-- The `replace` step with pattern "-+": collapse every run of hyphens
to one hyphen. -/
def collapseDashes : List Char → List Char
  | [] => []
  | [c] => [c]
  | a :: b :: rest =>
      if a = '-' && b = '-' then collapseDashes (b :: rest)
      else a :: collapseDashes (b :: rest)

/-- The `replace` step with pattern "^-|-$": drop one leading and one
trailing hyphen. -/
def stripEdgeDashes (l : List Char) : List Char :=
  let l1 := match l with
    | '-' :: t => t
    | t => t
  match l1.reverse with
  | '-' :: t => t.reverse
  | _ => l1

/-- ASCII lower-casing of one character (`toLowerCase`). -/
def lowerChar (c : Char) : Char :=
  if 'A' ≤ c && c ≤ 'Z' then Char.ofNat (c.toNat + 32) else c

/-- `trim()`: drop whitespace from both ends. -/
def trimList (l : List Char) : List Char :=
  ((l.dropWhile Char.isWhitespace).reverse.dropWhile Char.isWhitespace).reverse

/-- Slug derivation of `addCategory`: lower-case, trim, replace each
character outside `[a-z0-9]` by a hyphen, collapse hyphen runs, drop the
edge hyphens (the three chained `replace` calls of the source). -/
def slugify (name : String) : String :=
  let dashed := (trimList (name.toList.map lowerChar)).map
    (fun c => if isLowerAlnum c then c else '-')
  String.mk (stripEdgeDashes (collapseDashes dashed))

/-- `fetchCategories()`: read the settings document (no admin gate) and
return its `categories` array, `[]` when the field is absent; a missing
settings document is an error (wrapped by the catch-all). -/
def fetchCategories (s : CatState) : Except String (List CategoryItem) :=
  match s.settings with
  | none => .error (wrapFetch NOT_FOUND_ERROR)
  | some sd => .ok (catsOf sd)

/-- `addCategory({name})`: admin gate, slug derivation, then a
transaction that re-reads the settings document, rejects a duplicate id
(exact match) or duplicate name (case-sensitive), and otherwise appends
`{id, name}` via `arrayUnion`, bumping the settings `updatedAt`.
Returns the new id. -/
def addCategory (name : String) (isAdmin : Bool) (now : Int) (s : CatState) :
    Except String (String × CatState) :=
  if !isAdmin then .error ADMIN_AUTH_ERROR
  else
    let newId := slugify name
    if newId = "" then .error (wrapAdd INVALID_SLUG_ERROR)
    else
      match s.settings with
      | none => .error (wrapAdd NOT_FOUND_ERROR)
      | some sd =>
        let cats := catsOf sd
        if cats.any (fun c => c.id == newId) then
          .error (wrapAdd (dupIdMsg newId))
        else if cats.any (fun c => c.name == name) then
          .error (wrapAdd (dupNameMsg name))
        else
          let sd2 : SettingsDoc :=
            { categories := some (arrayUnion cats ⟨newId, name⟩),
              updatedAt := now }
          .ok (newId, { s with settings := some sd2 })

/-- `updateCategory(categoryId, updatedName)`: admin gate, then the
system-category guard (before any store access), then a transaction that
locates the entry by id, rejects a duplicate name held by a *different*
index, and otherwise replaces that entry's name in a copied array. -/
def updateCategory (cid : String) (updatedName : String) (isAdmin : Bool)
    (now : Int) (s : CatState) : Except String (Bool × CatState) :=
  if !isAdmin then .error ADMIN_AUTH_ERROR
  else if isSystemId cid then .error SYSTEM_UPDATE_ERROR
  else
    match s.settings with
    | none => .error (wrapUpdate NOT_FOUND_ERROR)
    | some sd =>
      let cats := catsOf sd
      match cats.findIdx? (fun c => c.id == cid) with
      | none => .error (wrapUpdate (catNotFoundMsg cid))
      | some i =>
        if cats.enum.any (fun p => p.2.name == updatedName && p.1 != i) then
          .error (wrapUpdate (dupNameMsg updatedName))
        else
          let sd2 : SettingsDoc :=
            { categories := some (cats.enum.map
                (fun p => if p.1 = i then { p.2 with name := updatedName } else p.2)),
              updatedAt := now }
          .ok (true, { s with settings := some sd2 })

/-- `deleteCategory(categoryId)`: admin gate, system-category guard,
then a read of the settings document locating the entry to delete, then
one transaction that (a) rewrites the `category` of every post whose
`category` equals `categoryId` to `'general'` and bumps its `updatedAt`,
and (b) removes the located entry from the `categories` array via
`arrayRemove`, bumping the settings `updatedAt`. Both effects are inside
the same transaction, so a completed call applies both and a failed call
applies neither (an `Except.error` result carries no new state). -/
def deleteCategory (cid : String) (isAdmin : Bool) (now : Int) (s : CatState) :
    Except String (Bool × CatState) :=
  if !isAdmin then .error ADMIN_AUTH_ERROR
  else if isSystemId cid then .error SYSTEM_DELETE_ERROR
  else
    match s.settings with
    | none => .error (wrapDelete NOT_FOUND_ERROR)
    | some sd =>
      let cats := catsOf sd
      match cats.find? (fun c => c.id == cid) with
      | none => .error (wrapDelete (catNotFoundMsg cid))
      | some catToDelete =>
        let sd2 : SettingsDoc :=
          { categories := some (arrayRemove cats catToDelete),
            updatedAt := now }
        let posts2 := s.posts.map (fun kp =>
          if kp.2.category == cid then
            (kp.1, { kp.2 with category := "general", updatedAt := now })
          else kp)
        .ok (true, { settings := some sd2, posts := posts2 })

/-- `reorderCategories(sortedCategories)`: admin gate, read the settings
document, fail on the first currently stored id missing from the
candidate, then on the first candidate id not currently stored, and only
when both set-inclusion checks pass overwrite the stored `categories`
array with the candidate, bumping the settings `updatedAt`. -/
def reorderCategories (cand : List CategoryItem) (isAdmin : Bool) (now : Int)
    (s : CatState) : Except String (Bool × CatState) :=
  if !isAdmin then .error ADMIN_AUTH_ERROR
  else
    match s.settings with
    | none => .error (wrapReorder NOT_FOUND_ERROR)
    | some sd =>
      let cats := catsOf sd
      let existingIds := cats.map (fun c => c.id)
      let newIds := cand.map (fun c => c.id)
      match existingIds.find? (fun i => !newIds.contains i) with
      | some i => .error (wrapReorder (missingIdMsg i))
      | none =>
        match newIds.find? (fun i => !existingIds.contains i) with
        | some i => .error (wrapReorder (unknownIdMsg i))
        | none =>
          let sd2 : SettingsDoc := { categories := some cand, updatedAt := now }
          .ok (true, { s with settings := some sd2 })

/-- `게시물을 찾을 수 없습니다.` — thrown by the ownership branch of
`updatePost` / `deletePost` / `movePost` when the target is absent. -/
def POST_NOT_FOUND : String := "게시물을 찾을 수 없습니다."

/-- Ownership failure of `updatePost`. -/
def UPDATE_OWN_ERROR : String := "자신이 작성한 게시물만 수정할 수 있습니다."

/-- Ownership failure of `deletePost`. -/
def DELETE_OWN_ERROR : String := "자신이 작성한 게시물만 삭제할 수 있습니다."

/-- Ownership failure of `movePost`. -/
def MOVE_OWN_ERROR : String := "자신이 작성한 게시물만 이동할 수 있습니다."

/-- Benign failure of `movePost` when the post already sits in the
requested category. -/
def ALREADY_IN_CATEGORY : String := "이미 해당 카테고리에 속해 있는 게시물입니다."

/-- The error Firestore `updateDoc` raises when the target document does
not exist (the SDK message is opaque; only its identity matters here —
the enclosing `catch` rethrows it verbatim). -/
def STORE_NO_DOCUMENT : String := "NOT_FOUND: no document to update"

/-- Look a post up by document id in the `posts` collection. -/
def findPost (store : List (String × PostStored)) (pid : String) :
    Option PostStored :=
  (store.find? (fun kp => kp.1 == pid)).map (fun kp => kp.2)

/-- Overwrite the post stored under `pid` (document ids are unique; the
first matching entry is replaced). -/
def setPost (store : List (String × PostStored)) (pid : String)
    (p : PostStored) : List (String × PostStored) :=
  store.map (fun kp => if kp.1 == pid then (kp.1, p) else kp)

/-- `Partial<Post> | Partial<UIPost>` as accepted by `updatePost`: every
caller-settable key, each optionally present. `id`, `createdAt` and the
UI-only `date` are deleted by `updatePost` before the write; `comments`
is renamed to `commentCount`; `updatedAt` is overwritten unconditionally.
(`authorId` is spread into the write set untouched — the source has no
`delete updateData.authorId` line.) -/
structure PostPatch where
  id : Option String := none
  title : Option String := none
  content : Option String := none
  category : Option String := none
  authorName : Option String := none
  authorId : Option String := none
  tags : Option (List String) := none
  createdAt : Option Int := none
  updatedAt : Option Int := none
  commentCount : Option Nat := none
  viewCount : Option Nat := none
  date : Option String := none
  comments : Option Nat := none
deriving DecidableEq, Repr

/-- The write set `updateDoc(docRef, updateData)` applies in `updatePost`:
the spread patch, with `updatedAt := Timestamp.now()`, `date` deleted,
`comments` renamed to `commentCount`, `createdAt` deleted, `id` deleted.
A field absent from the write set keeps its stored value. -/
def applyPatch (p : PostStored) (patch : PostPatch) (now : Int) : PostStored :=
  { title := patch.title.getD p.title
    content := patch.content.getD p.content
    category := patch.category.getD p.category
    authorName := patch.authorName.getD p.authorName
    authorId := patch.authorId.getD p.authorId
    tags := patch.tags.getD p.tags
    createdAt := p.createdAt
    updatedAt := now
    commentCount := (match patch.comments with
      | some n => some n
      | none => patch.commentCount).getD p.commentCount
    viewCount := patch.viewCount.getD p.viewCount }

/-- `updatePost(postId, postData, userId?)`: when `userId` is supplied,
re-read the target and fail unless its stored `authorId` equals `userId`;
then apply the sanitised write set (see `applyPatch`). Without `userId`
the ownership check is skipped entirely. -/
def updatePost (store : List (String × PostStored)) (pid : String)
    (patch : PostPatch) (userId : Option String) (now : Int) :
    Except String (List (String × PostStored)) :=
  match userId with
  | some u =>
    match findPost store pid with
    | none => .error POST_NOT_FOUND
    | some p =>
      if p.authorId ≠ u then .error UPDATE_OWN_ERROR
      else .ok (setPost store pid (applyPatch p patch now))
  | none =>
    match findPost store pid with
    | none => .error STORE_NO_DOCUMENT
    | some p => .ok (setPost store pid (applyPatch p patch now))

/-- `deletePost(postId, userId?)`: the same optional ownership check,
then `deleteDoc` (which succeeds even when the document is absent). -/
def deletePost (store : List (String × PostStored)) (pid : String)
    (userId : Option String) : Except String (List (String × PostStored)) :=
  match userId with
  | some u =>
    match findPost store pid with
    | none => .error POST_NOT_FOUND
    | some p =>
      if p.authorId ≠ u then .error DELETE_OWN_ERROR
      else .ok (store.filter (fun kp => kp.1 ≠ pid))
  | none => .ok (store.filter (fun kp => kp.1 ≠ pid))

/-- `movePost(postId, categoryId, userId?)`: when `userId` is supplied,
check ownership and then fail benignly if the post already has
`categoryId`; otherwise (and always when `userId` is omitted — the
equal-category check lives inside the `if (userId)` block) write only
`category` and a fresh `updatedAt`. -/
def movePost (store : List (String × PostStored)) (pid : String)
    (categoryId : String) (userId : Option String) (now : Int) :
    Except String (List (String × PostStored)) :=
  match userId with
  | some u =>
    match findPost store pid with
    | none => .error POST_NOT_FOUND
    | some p =>
      if p.authorId ≠ u then .error MOVE_OWN_ERROR
      else if p.category = categoryId then .error ALREADY_IN_CATEGORY
      else .ok (setPost store pid
        { p with category := categoryId, updatedAt := now })
  | none =>
    match findPost store pid with
    | none => .error STORE_NO_DOCUMENT
    | some p => .ok (setPost store pid
        { p with category := categoryId, updatedAt := now })

/-- A raw Firestore document as seen by `mapDocToPost`: every field may
be absent (and strings may be empty, which JS `||` treats as missing). -/
structure RawDoc where
  id : String
  title : Option String := none
  content : Option String := none
  category : Option String := none
  authorName : Option String := none
  authorId : Option String := none
  tags : Option (List String) := none
  createdAt : Option Int := none
  updatedAt : Option Int := none
  commentCount : Option Nat := none
  viewCount : Option Nat := none
deriving DecidableEq, Repr

/-- The domain `Post` produced by `mapDocToPost`. -/
structure Post where
  id : String
  title : String
  content : String
  category : String
  authorName : String
  authorId : String
  tags : List String
  createdAt : Int
  updatedAt : Int
  commentCount : Nat
  viewCount : Nat
  isNew : Bool
deriving DecidableEq, Repr

/-- JS `v || dflt` for an optional string field: absent *or empty*
strings fall back to the default. -/
def jsOrStr (v : Option String) (dflt : String) : String :=
  match v with
  | none => dflt
  | some s => if s = "" then dflt else s

/-- The freshness window of `isNew`: `24 * 60 * 60 * 1000` ms. -/
def FRESH_WINDOW_MS : Int := 24 * 60 * 60 * 1000

/-- `mapDocToPost(doc)` evaluated at current time `now`: total over raw
documents — absent `title`/`content`/`category`/`tags` are defaulted to
`'제목 없음'` / `''` / `'general'` / `[]`, absent timestamps to
`Timestamp.now()`, absent counters to `0`; `isNew` is
`now - createdAt < 24h` when `createdAt` is present and `false` when it
is absent. Being a Lean function, it never throws. -/
def mapDocToPost (now : Int) (d : RawDoc) : Post :=
  { id := d.id
    title := jsOrStr d.title "제목 없음"
    content := jsOrStr d.content ""
    category := jsOrStr d.category "general"
    authorName := jsOrStr d.authorName "알 수 없음"
    authorId := jsOrStr d.authorId ""
    tags := d.tags.getD []
    createdAt := d.createdAt.getD now
    updatedAt := d.updatedAt.getD now
    commentCount := d.commentCount.getD 0
    viewCount := d.viewCount.getD 0
    isNew := match d.createdAt with
      | some t => now - t < FRESH_WINDOW_MS
      | none => false }


/-- `MAX_RETRY_COUNT` of `firestore.ts`. -/
def MAX_RETRY_COUNT : Nat := 3

/-- The backoff of `delay(attempts)`: `Math.pow(2, attempts - 1) * 1000`
milliseconds. -/
def delayMs (attempts : Nat) : Nat := 2 ^ (attempts - 1) * 1000

/-- The error object a failed query attempt carries (`error.code`,
`error.message`). -/
structure QueryError where
  code : Option String
  message : String
deriving DecidableEq, Repr

/-- Outcome of one underlying query-plus-mapping attempt: the success
payload, or the thrown store error. The per-attempt body (Firestore
query and document mapping) is abstracted as an oracle `Nat → Attempt α`
indexed by the attempt number, since the retry policy is what is being
verified. -/
inductive Attempt (α : Type) where
  | ok (v : α)
  | fail (e : QueryError)
deriving DecidableEq, Repr

/-- Whether an attempt outcome is a thrown error. -/
def isFail {α : Type} : Attempt α → Bool
  | .ok _ => false
  | .fail _ => true

/-- Does `pat` occur as a contiguous sublist of `l`? -/
def hasSub : List Char → List Char → Bool
  | [], pat => pat.isEmpty
  | c :: rest, pat => pat.isPrefixOf (c :: rest) || hasSub rest pat

/-- JS `s.includes(pat)`. -/
def strIncl (s pat : String) : Bool := hasSub s.toList pat.toList

/-- The index-error classifier of `fetchPostsByCategory` /
`fetchPostsByTag`: `error.code === 'failed-precondition' ||
error.message?.includes('requires an index')`. -/
def isIndexError (e : QueryError) : Bool :=
  e.code == some "failed-precondition" || strIncl e.message "requires an index"

/-- The literal URL head matched by the remediation-link regex. -/
def urlMark : List Char := "https://console.firebase.google.com".toList

/-- A character ending the regex match (the character class excludes
whitespace and double quotes). -/
def isUrlStop (c : Char) : Bool := c.isWhitespace || c == '"'

/-- First match of the remediation-link regex in an error message: the
literal URL head followed greedily by non-stop characters. -/
def findUrl : List Char → Option String
  | [] => none
  | c :: rest =>
    if urlMark.isPrefixOf (c :: rest) then
      some (String.mk ((c :: rest).takeWhile (fun x => !isUrlStop x)))
    else findUrl rest

/-- `indexMessage` built by the index-error branch: points at the
extracted console link when the regex matched, at the console generally
otherwise. -/
def indexMessage (e : QueryError) : String :=
  match findUrl e.message.toList with
  | some url => "Firebase 복합 인덱스가 필요합니다. 다음 링크에서 인덱스를 생성해주세요: " ++ url
  | none => "Firebase 복합 인덱스가 필요합니다. Firebase 콘솔에서 인덱스를 생성해주세요."

/-- What a fetch call produced: its returned-or-thrown outcome, how many
attempts ran, and the backoff sleeps (ms) performed between attempts. -/
structure RunResult (α : Type) where
  result : Except String α
  attempts : Nat
  sleeps : List Nat
deriving Repr

/-- The `while (attempts < MAX_RETRY_COUNT)` retry loop of `fetchPosts`
and `fetchPostById` (no index-error branch): every failure retries until
the attempt budget is spent, then the generic message is thrown; the
fuel argument mirrors the loop bound (`MAX_RETRY_COUNT - attempts`
iterations remain). -/
def runPlain {α : Type} (msg : String) (o : Nat → Attempt α) :
    Nat → Nat → List Nat → RunResult α
  | 0, attempts, sleeps => ⟨.error msg, attempts, sleeps⟩
  | fuel + 1, attempts, sleeps =>
    let a := attempts + 1
    match o a with
    | .ok v => ⟨.ok v, a, sleeps⟩
    | .fail _ =>
      if MAX_RETRY_COUNT ≤ a then ⟨.error msg, a, sleeps⟩
      else runPlain msg o fuel a (sleeps ++ [delayMs a])

/-- The retry loop of `fetchPostsByCategory` / `fetchPostsByTag`: as
`runPlain`, except that a failure classified by `isIndexError` is
rethrown immediately — wrapped by `wrapIdx` — with no further attempt
and no sleep. -/
def runIndexed {α : Type} (msg : String) (wrapIdx : String → String)
    (o : Nat → Attempt α) : Nat → Nat → List Nat → RunResult α
  | 0, attempts, sleeps => ⟨.error msg, attempts, sleeps⟩
  | fuel + 1, attempts, sleeps =>
    let a := attempts + 1
    match o a with
    | .ok v => ⟨.ok v, a, sleeps⟩
    | .fail e =>
      if isIndexError e then ⟨.error (wrapIdx (indexMessage e)), a, sleeps⟩
      else if MAX_RETRY_COUNT ≤ a then ⟨.error msg, a, sleeps⟩
      else runIndexed msg wrapIdx o fuel a (sleeps ++ [delayMs a])

/-- Generic failure message of `fetchPosts`. -/
def FETCH_POSTS_FAIL : String :=
  "게시물 데이터를 가져오지 못했습니다. 잠시 후 다시 시도해주세요."

/-- Generic failure message of `fetchPostsByCategory`. -/
def fetchByCategoryFail (category : String) : String :=
  category ++ " 카테고리 게시물을 가져오지 못했습니다. 잠시 후 다시 시도해주세요."

/-- The per-category banner prepended to a rethrown index error. -/
def byCategoryIdxWrap (category : String) (m : String) : String :=
  category ++ " 카테고리 조회를 위한 " ++ m

/-- Generic failure message of `fetchPostsByTag`. -/
def fetchByTagFail (tag : String) : String :=
  tag ++ " 태그 게시물을 가져오지 못했습니다. 잠시 후 다시 시도해주세요."

/-- The per-tag banner prepended to a rethrown index error. -/
def byTagIdxWrap (tag : String) (m : String) : String :=
  tag ++ " 태그 조회를 위한 " ++ m

/-- Generic failure message of `fetchPostById`. -/
def FETCH_BYID_FAIL : String :=
  "게시물 상세 정보를 가져오지 못했습니다. 잠시 후 다시 시도해주세요."

/-- `fetchPosts()`. -/
def fetchPosts {α : Type} (o : Nat → Attempt α) : RunResult α :=
  runPlain FETCH_POSTS_FAIL o MAX_RETRY_COUNT 0 []

/-- `fetchPostsByCategory(category)`: an empty or `'all'` category
delegates to `fetchPosts` (oracle `oAll`); otherwise the index-aware
retry loop runs on this call's own query oracle. -/
def fetchPostsByCategory {α : Type} (category : String)
    (oAll o : Nat → Attempt α) : RunResult α :=
  if category = "" || category = "all" then fetchPosts oAll
  else runIndexed (fetchByCategoryFail category) (byCategoryIdxWrap category)
    o MAX_RETRY_COUNT 0 []

/-- `fetchPostsByTag(tag)`. -/
def fetchPostsByTag {α : Type} (tag : String) (o : Nat → Attempt α) :
    RunResult α :=
  runIndexed (fetchByTagFail tag) (byTagIdxWrap tag) o MAX_RETRY_COUNT 0 []

/-- `fetchPostById(postId)`: same plain retry loop; an existing document
is `ok (some _)`, a missing one returns `ok none` (null) without retry. -/
def fetchPostById {α : Type} (o : Nat → Attempt (Option α)) :
    RunResult (Option α) :=
  runPlain FETCH_BYID_FAIL o MAX_RETRY_COUNT 0 []


/-! ## Theorems -/

/-- Claim C10: every mutating category operation — `addCategory`,
`updateCategory`, `deleteCategory`, `reorderCategories` — first checks
admin authentication and, when the check fails, errors with
`ADMIN_AUTH_ERROR` before any store access: the rejection is identical
for every store state (so the store is neither read nor written, and the
error result carries no new state). The read operation
`fetchCategories` performs no such check: it succeeds on any state
holding a settings document, with no admin input at all. -/
theorem categoryOps_admin_gate :
    ∀ (name cid newName : String) (cand : List CategoryItem) (now : Int)
      (s : CatState),
    addCategory name false now s = .error ADMIN_AUTH_ERROR
    ∧ updateCategory cid newName false now s = .error ADMIN_AUTH_ERROR
    ∧ deleteCategory cid false now s = .error ADMIN_AUTH_ERROR
    ∧ reorderCategories cand false now s = .error ADMIN_AUTH_ERROR
    ∧ (∀ sd, s.settings = some sd → fetchCategories s = .ok (catsOf sd)) := by
  intro name cid newName cand now s
  refine ⟨rfl, rfl, rfl, rfl, ?_⟩
  intro sd h
  simp [fetchCategories, h]

/-- Witness for `categoryOps_admin_gate` at a concrete state. -/
theorem categoryOps_admin_gate_witness :
    addCategory "X" false 0 ⟨some ⟨some [], 0⟩, []⟩ = .error ADMIN_AUTH_ERROR
    ∧ fetchCategories ⟨some ⟨some [⟨"general", "G"⟩], 0⟩, []⟩
        = .ok [⟨"general", "G"⟩] := by
  have h := categoryOps_admin_gate "X" "c" "n" [] 0 ⟨some ⟨some [], 0⟩, []⟩
  have h2 := categoryOps_admin_gate "X" "c" "n" [] 0
    ⟨some ⟨some [⟨"general", "G"⟩], 0⟩, []⟩
  exact ⟨h.1, h2.2.2.2.2 ⟨some [⟨"general", "G"⟩], 0⟩ rfl⟩

/-- Claim C4: for `updatePost`, `deletePost` and `movePost`, a supplied
`actingUserId` that differs from the stored `authorId` makes the call
fail with the permission error of that operation and produces no new
store (no write); an omitted `actingUserId` skips the ownership check
and the mutation proceeds. -/
theorem postMutation_ownership_gate :
    ∀ (store : List (String × PostStored)) (pid u catId : String)
      (p : PostStored) (patch : PostPatch) (now : Int),
    findPost store pid = some p →
    (p.authorId ≠ u →
      updatePost store pid patch (some u) now = .error UPDATE_OWN_ERROR
      ∧ deletePost store pid (some u) = .error DELETE_OWN_ERROR
      ∧ movePost store pid catId (some u) now = .error MOVE_OWN_ERROR)
    ∧ (updatePost store pid patch none now
        = .ok (setPost store pid (applyPatch p patch now))
      ∧ deletePost store pid none = .ok (store.filter (fun kp => kp.1 ≠ pid))
      ∧ movePost store pid catId none now
        = .ok (setPost store pid { p with category := catId, updatedAt := now })) := by
  intro store pid u catId p patch now hfind
  constructor
  · intro hne
    refine ⟨?_, ?_, ?_⟩ <;> simp [updatePost, deletePost, movePost, hfind, hne]
  · refine ⟨?_, ?_, ?_⟩ <;> simp [updatePost, deletePost, movePost, hfind]

/-- Witness for `postMutation_ownership_gate`: a one-post store, a
non-owner call fails, an ownerless call writes. -/
theorem postMutation_ownership_gate_witness :
    updatePost [("p1", ⟨"t", "c", "general", "alice", "alice", [], 0, 0, 0, 0⟩)]
        "p1" {} (some "bob") 7 = .error UPDATE_OWN_ERROR
    ∧ deletePost [("p1", ⟨"t", "c", "general", "alice", "alice", [], 0, 0, 0, 0⟩)]
        "p1" none = .ok [] := by
  have h := postMutation_ownership_gate
    [("p1", ⟨"t", "c", "general", "alice", "alice", [], 0, 0, 0, 0⟩)]
    "p1" "bob" "general" ⟨"t", "c", "general", "alice", "alice", [], 0, 0, 0, 0⟩
    {} 7 rfl
  refine ⟨(h.1 (by decide)).1, ?_⟩
  have h2 := h.2.2.1
  simpa using h2

/-- Claim C8: the document mapper is total — every raw record yields a
`Post`; missing `title`, `content`, `category`, `tags` fall back to the
documented defaults — and when the record carries a `createdAt`, the
derived `isNew` is `true` exactly when `now - createdAt` is strictly
below the 24-hour window (so `false` at exactly 24 h and beyond). -/
theorem mapDocToPost_defaults_isNew :
    ∀ (now : Int) (d : RawDoc),
    (d.title = none → (mapDocToPost now d).title = "제목 없음")
    ∧ (d.content = none → (mapDocToPost now d).content = "")
    ∧ (d.category = none → (mapDocToPost now d).category = "general")
    ∧ (d.tags = none → (mapDocToPost now d).tags = [])
    ∧ (∀ t, d.createdAt = some t →
        ((mapDocToPost now d).isNew = true ↔ now - t < FRESH_WINDOW_MS)) := by
  intro now d
  refine ⟨?_, ?_, ?_, ?_, ?_⟩
  · intro h; simp [mapDocToPost, jsOrStr, h]
  · intro h; simp [mapDocToPost, jsOrStr, h]
  · intro h; simp [mapDocToPost, jsOrStr, h]
  · intro h; simp [mapDocToPost, h]
  · intro t h; simp [mapDocToPost, h]

/-- Witness for `mapDocToPost_defaults_isNew`: a fully-missing record is
defaulted, and at exactly the 24-hour boundary `isNew` is `false`. -/
theorem mapDocToPost_defaults_isNew_witness :
    (mapDocToPost 86400000
      ⟨"d1", none, none, none, none, none, none, some 0, none, none, none⟩).title
      = "제목 없음"
    ∧ (mapDocToPost 86400000
      ⟨"d1", none, none, none, none, none, none, some 0, none, none, none⟩).isNew
      = false
    ∧ (mapDocToPost 86399999
      ⟨"d1", none, none, none, none, none, none, some 0, none, none, none⟩).isNew
      = true := by
  have h := mapDocToPost_defaults_isNew 86400000
    ⟨"d1", none, none, none, none, none, none, some 0, none, none, none⟩
  have h2 := mapDocToPost_defaults_isNew 86399999
    ⟨"d1", none, none, none, none, none, none, some 0, none, none, none⟩
  refine ⟨h.1 rfl, ?_, ?_⟩
  · have hb := h.2.2.2.2 0 rfl
    cases hv : (mapDocToPost 86400000
      ⟨"d1", none, none, none, none, none, none, some 0, none, none, none⟩).isNew
    · rfl
    · exact absurd (hb.mp hv) (by decide)
  · exact (h2.2.2.2.2 0 rfl).mpr (by decide)

/-- Claim C6: `addCategory` derives the id by the slug pipeline
(lower-case, trim, hyphenate non-alphanumeric runs, strip edge hyphens),
so `"Tech News!"` slugs to `"tech-news"`; an empty slug is rejected with
the validation error; inside the transaction an existing identical id or
an existing identical (case-sensitive) name is rejected — all rejections
produce no new state — and otherwise the entry is appended. -/
theorem addCategory_slug_rules :
    slugify "Tech News!" = "tech-news"
    ∧ (∀ (name : String) (now : Int) (s : CatState),
        slugify name = "" →
        addCategory name true now s = .error (wrapAdd INVALID_SLUG_ERROR))
    ∧ (∀ (name : String) (now : Int) (s : CatState) (sd : SettingsDoc),
        s.settings = some sd → slugify name ≠ "" →
        ((catsOf sd).any (fun c => c.id == slugify name) = true →
          addCategory name true now s = .error (wrapAdd (dupIdMsg (slugify name))))
        ∧ ((catsOf sd).any (fun c => c.id == slugify name) = false →
          (catsOf sd).any (fun c => c.name == name) = true →
          addCategory name true now s = .error (wrapAdd (dupNameMsg name)))
        ∧ ((catsOf sd).any (fun c => c.id == slugify name) = false →
          (catsOf sd).any (fun c => c.name == name) = false →
          addCategory name true now s
            = .ok (slugify name,
                { s with settings := some ⟨some (arrayUnion (catsOf sd) ⟨slugify name, name⟩), now⟩ }))) := by
  refine ⟨rfl, ?_, ?_⟩
  · intro name now s h
    simp [addCategory, h]
  · intro name now s sd hs hne
    refine ⟨?_, ?_, ?_⟩
    · intro hdupId
      simp [addCategory, hs, hne, hdupId]
    · intro hdupId hdupName
      simp [addCategory, hs, hne, hdupId, hdupName]
    · intro hdupId hdupName
      simp [addCategory, hs, hne, hdupId, hdupName]

/-- Witness for `addCategory_slug_rules`: adding "Tech News!" to a fresh
list succeeds with id `tech-news`; a second identical call fails on the
duplicate name (its slug duplicate is reported first, as an id clash). -/
theorem addCategory_slug_rules_witness :
    addCategory "Tech News!" true 1 ⟨some ⟨some [⟨"general", "G"⟩], 0⟩, []⟩
      = .ok ("tech-news",
          ⟨some ⟨some [⟨"general", "G"⟩, ⟨"tech-news", "Tech News!"⟩], 1⟩, []⟩)
    ∧ addCategory "Tech News!" true 2
        ⟨some ⟨some [⟨"general", "G"⟩, ⟨"tech-news", "Tech News!"⟩], 1⟩, []⟩
      = .error (wrapAdd (dupIdMsg "tech-news")) := by
  have h := addCategory_slug_rules
  have h1 := (h.2.2 "Tech News!" 1 ⟨some ⟨some [⟨"general", "G"⟩], 0⟩, []⟩
    ⟨some [⟨"general", "G"⟩], 0⟩ rfl (by decide)).2.2 (by decide) (by decide)
  have h2 := (h.2.2 "Tech News!" 2
    ⟨some ⟨some [⟨"general", "G"⟩, ⟨"tech-news", "Tech News!"⟩], 1⟩, []⟩
    ⟨some [⟨"general", "G"⟩, ⟨"tech-news", "Tech News!"⟩], 1⟩ rfl (by decide)).1
    (by decide)
  rw [h.1] at h1 h2
  exact ⟨h1, h2⟩


/-- Claim C3 counterexample: `updatePost` does NOT strip a
caller-supplied `authorId` — with no acting user, a patch setting only
`authorId` rewrites the stored `authorId` from `"alice"` to
`"mallory"` (the source deletes `id`, `createdAt` and `date` from the
write set, but has no `delete updateData.authorId`). -/
theorem updatePost_authorId_not_stripped :
    updatePost [("p1", ⟨"t", "c", "general", "alice", "alice", [], 0, 0, 0, 0⟩)]
        "p1" { authorId := some "mallory" } none 100
      = .ok [("p1", ⟨"t", "c", "general", "alice", "mallory", [], 0, 100, 0, 0⟩)]
    ∧ (applyPatch ⟨"t", "c", "general", "alice", "alice", [], 0, 0, 0, 0⟩
        { authorId := some "mallory" } 100).authorId ≠ "alice" := by
  exact ⟨rfl, by decide⟩

/-- Claim C3 amended: `updatePost` removes caller-supplied `id`,
`createdAt` (and the UI-only `date`) from the patch — the stored
`createdAt` is never changed — and always overwrites `updatedAt` with
the current time regardless of any caller-supplied value; but
`authorId` is not stripped: a caller-supplied `authorId` overwrites the
stored one. -/
theorem updatePost_sanitisation :
    ∀ (store : List (String × PostStored)) (pid : String) (p : PostStored)
      (patch : PostPatch) (u : Option String) (now : Int),
    (∀ x y z w, updatePost store pid
        { patch with id := x, createdAt := y, date := z, updatedAt := w } u now
      = updatePost store pid patch u now)
    ∧ (findPost store pid = some p →
        (applyPatch p patch now).createdAt = p.createdAt
        ∧ (applyPatch p patch now).updatedAt = now
        ∧ (applyPatch p patch now).authorId = patch.authorId.getD p.authorId
        ∧ updatePost store pid patch none now
          = .ok (setPost store pid (applyPatch p patch now))) := by
  intro store pid p patch u now
  constructor
  · intro x y z w
    cases u <;> rfl
  · intro hfind
    refine ⟨rfl, rfl, rfl, ?_⟩
    simp [updatePost, hfind]

/-- Witness for `updatePost_sanitisation`: a patch trying to set `id`,
`createdAt`, `date` and `updatedAt` acts exactly like the empty patch,
and `updatedAt` still becomes the call time. -/
theorem updatePost_sanitisation_witness :
    updatePost [("p1", ⟨"t", "c", "general", "alice", "alice", [], 5, 5, 0, 0⟩)]
        "p1" { id := some "evil", createdAt := some 99, date := some "now",
               updatedAt := some 77 } none 42
      = updatePost [("p1", ⟨"t", "c", "general", "alice", "alice", [], 5, 5, 0, 0⟩)]
        "p1" {} none 42
    ∧ (applyPatch ⟨"t", "c", "general", "alice", "alice", [], 5, 5, 0, 0⟩ {} 42).createdAt = 5
    ∧ (applyPatch ⟨"t", "c", "general", "alice", "alice", [], 5, 5, 0, 0⟩ {} 42).updatedAt = 42 := by
  have h := updatePost_sanitisation
    [("p1", ⟨"t", "c", "general", "alice", "alice", [], 5, 5, 0, 0⟩)] "p1"
    ⟨"t", "c", "general", "alice", "alice", [], 5, 5, 0, 0⟩ {} none 42
  exact ⟨h.1 (some "evil") (some 99) (some "now") (some 77),
    (h.2 rfl).1, (h.2 rfl).2.1⟩

/-- Claim C9 counterexample: with `actingUserId` omitted, moving a post
to the category it already occupies does NOT fail benignly — the write
proceeds (the equal-category check sits inside the `if (userId)` block),
bumping `updatedAt` while keeping `category` the same. -/
theorem movePost_same_category_writes :
    movePost [("p1", ⟨"t", "c", "general", "alice", "alice", [], 0, 0, 0, 0⟩)]
        "p1" "general" none 99
      = .ok [("p1", ⟨"t", "c", "general", "alice", "alice", [], 0, 99, 0, 0⟩)]
    ∧ [("p1", (⟨"t", "c", "general", "alice", "alice", [], 0, 99, 0, 0⟩ : PostStored))]
      ≠ [("p1", ⟨"t", "c", "general", "alice", "alice", [], 0, 0, 0, 0⟩)] := by
  exact ⟨rfl, by decide⟩

/-- Claim C9 amended: only when `actingUserId` is supplied (and owns the
post) does an equal target category fail with the benign
already-in-category error and no write; a differing category, or any
call with `actingUserId` omitted (even to the same category), writes
exactly `category` and a fresh `updatedAt`. -/
theorem movePost_behaviour :
    ∀ (store : List (String × PostStored)) (pid catId u : String)
      (p : PostStored) (now : Int),
    findPost store pid = some p →
    (p.authorId = u →
      (p.category = catId →
        movePost store pid catId (some u) now = .error ALREADY_IN_CATEGORY)
      ∧ (p.category ≠ catId →
        movePost store pid catId (some u) now
          = .ok (setPost store pid { p with category := catId, updatedAt := now })))
    ∧ movePost store pid catId none now
        = .ok (setPost store pid { p with category := catId, updatedAt := now }) := by
  intro store pid catId u p now hfind
  constructor
  · intro hown
    constructor
    · intro hsame
      simp [movePost, hfind, hown, hsame]
    · intro hdiff
      simp [movePost, hfind, hown, hdiff]
  · simp [movePost, hfind]

/-- Witness for `movePost_behaviour`: the owner moving a post onto its
current category gets the benign error; moving it elsewhere writes. -/
theorem movePost_behaviour_witness :
    movePost [("p1", ⟨"t", "c", "general", "alice", "alice", [], 0, 0, 0, 0⟩)]
        "p1" "general" (some "alice") 9 = .error ALREADY_IN_CATEGORY
    ∧ movePost [("p1", ⟨"t", "c", "general", "alice", "alice", [], 0, 0, 0, 0⟩)]
        "p1" "tech" (some "alice") 9
      = .ok [("p1", ⟨"t", "c", "tech", "alice", "alice", [], 0, 9, 0, 0⟩)] := by
  have h := movePost_behaviour
    [("p1", ⟨"t", "c", "general", "alice", "alice", [], 0, 0, 0, 0⟩)]
    "p1" "general" "alice" ⟨"t", "c", "general", "alice", "alice", [], 0, 0, 0, 0⟩ 9 rfl
  have h2 := movePost_behaviour
    [("p1", ⟨"t", "c", "general", "alice", "alice", [], 0, 0, 0, 0⟩)]
    "p1" "tech" "alice" ⟨"t", "c", "general", "alice", "alice", [], 0, 0, 0, 0⟩ 9 rfl
  refine ⟨(h.1 rfl).1 rfl, ?_⟩
  have e := (h2.1 rfl).2 (by decide)
  rw [e]; rfl

/-- Claim C7 counterexample: `reorderCategories` happily swaps the
relative order of the system categories `general` and `tech` within one
completed call — the layer does not protect their relative order. -/
theorem reorderCategories_swaps_system_order :
    reorderCategories [⟨"tech", "T"⟩, ⟨"general", "G"⟩, ⟨"questions", "Q"⟩] true 3
        ⟨some ⟨some [⟨"general", "G"⟩, ⟨"tech", "T"⟩, ⟨"questions", "Q"⟩], 0⟩, []⟩
      = .ok (true,
          ⟨some ⟨some [⟨"tech", "T"⟩, ⟨"general", "G"⟩, ⟨"questions", "Q"⟩], 3⟩, []⟩)
    ∧ isSystemId "general" = true ∧ isSystemId "tech" = true
    ∧ ([⟨"general", "G"⟩, ⟨"tech", "T"⟩, ⟨"questions", "Q"⟩] : List CategoryItem).findIdx?
        (fun c => c.id == "general") = some 0
    ∧ ([⟨"general", "G"⟩, ⟨"tech", "T"⟩, ⟨"questions", "Q"⟩] : List CategoryItem).findIdx?
        (fun c => c.id == "tech") = some 1
    ∧ ([⟨"tech", "T"⟩, ⟨"general", "G"⟩, ⟨"questions", "Q"⟩] : List CategoryItem).findIdx?
        (fun c => c.id == "tech") = some 0
    ∧ ([⟨"tech", "T"⟩, ⟨"general", "G"⟩, ⟨"questions", "Q"⟩] : List CategoryItem).findIdx?
        (fun c => c.id == "general") = some 1 := by
  refine ⟨rfl, rfl, rfl, ?_, ?_, ?_, ?_⟩ <;> rfl

/-- Claim C7 amended: `updateCategory` (rename) and `deleteCategory` on
any designated system id (`general`, `tech`, `questions`) fail with the
system-category validation error before any transaction — the rejection
is identical for every store state, so nothing is read or mutated — but
`reorderCategories` does not preserve the relative order of system
categories (see the counterexample). -/
theorem system_category_guard :
    ∀ (cid newName : String) (now : Int) (s : CatState),
    isSystemId cid = true →
    updateCategory cid newName true now s = .error SYSTEM_UPDATE_ERROR
    ∧ deleteCategory cid true now s = .error SYSTEM_DELETE_ERROR := by
  intro cid newName now s h
  constructor <;> simp [updateCategory, deleteCategory, h]

/-- Witness for `system_category_guard` at id `tech` on a store that
does not even hold a settings document. -/
theorem system_category_guard_witness :
    updateCategory "tech" "Technology" true 0 ⟨none, []⟩
      = .error SYSTEM_UPDATE_ERROR
    ∧ deleteCategory "tech" true 0 ⟨none, []⟩ = .error SYSTEM_DELETE_ERROR := by
  exact system_category_guard "tech" "Technology" 0 ⟨none, []⟩ rfl

/-- Claim C2 counterexample: the reorder validation only compares id
*sets*, so a candidate that duplicates a known id passes both checks and
is written verbatim — the stored sequence after this completed call is
not a permutation of the sequence stored before it. -/
theorem reorderCategories_accepts_duplicates :
    reorderCategories [⟨"b", "B"⟩, ⟨"b", "B"⟩, ⟨"general", "G"⟩] true 5
        ⟨some ⟨some [⟨"general", "G"⟩, ⟨"b", "B"⟩], 0⟩, []⟩
      = .ok (true, ⟨some ⟨some [⟨"b", "B"⟩, ⟨"b", "B"⟩, ⟨"general", "G"⟩], 5⟩, []⟩)
    ∧ ¬ List.Perm [(⟨"b", "B"⟩ : CategoryItem), ⟨"b", "B"⟩, ⟨"general", "G"⟩]
        [⟨"general", "G"⟩, ⟨"b", "B"⟩] := by
  exact ⟨rfl, by decide⟩

/-- Unfolding lemma: `reorderCategories` on an admin call over an
existing settings document is exactly its validation-then-write match. -/
theorem reorderCategories_unfolded :
    ∀ (cand : List CategoryItem) (now : Int) (s : CatState) (sd : SettingsDoc),
    s.settings = some sd →
    reorderCategories cand true now s
      = (match ((catsOf sd).map (fun c => c.id)).find?
            (fun j => !((cand.map (fun c => c.id)).contains j)) with
        | some i => .error (wrapReorder (missingIdMsg i))
        | none =>
          match (cand.map (fun c => c.id)).find?
              (fun j => !(((catsOf sd).map (fun c => c.id)).contains j)) with
          | some i => .error (wrapReorder (unknownIdMsg i))
          | none => .ok (true, { s with settings := some ⟨some cand, now⟩ })) := by
  intro cand now s sd hs
  unfold reorderCategories
  rw [hs]
  rfl

/-- Claim C2 amended: `reorderCategories` overwrites the stored order
only when the candidate id *set* equals the stored id set; a stored id
missing from the candidate, or a candidate id not stored, fails before
any write (the error result carries no new state). A successful reorder
therefore never drops or invents a category *id* — the id sets before
and after coincide — but the stored sequence need not be a permutation
of the previous entries: duplicated ids (or renamed entries) whose id
set matches are accepted and stored verbatim. -/
theorem reorderCategories_id_set_check :
    ∀ (cand : List CategoryItem) (now : Int) (s : CatState) (sd : SettingsDoc),
    s.settings = some sd →
    (∀ i, ((catsOf sd).map (fun c => c.id)).find?
        (fun j => !((cand.map (fun c => c.id)).contains j)) = some i →
      reorderCategories cand true now s = .error (wrapReorder (missingIdMsg i)))
    ∧ (∀ i, ((catsOf sd).map (fun c => c.id)).find?
        (fun j => !((cand.map (fun c => c.id)).contains j)) = none →
      (cand.map (fun c => c.id)).find?
        (fun j => !(((catsOf sd).map (fun c => c.id)).contains j)) = some i →
      reorderCategories cand true now s = .error (wrapReorder (unknownIdMsg i)))
    ∧ (((catsOf sd).map (fun c => c.id)).find?
        (fun j => !((cand.map (fun c => c.id)).contains j)) = none →
      (cand.map (fun c => c.id)).find?
        (fun j => !(((catsOf sd).map (fun c => c.id)).contains j)) = none →
      reorderCategories cand true now s
        = .ok (true, { s with settings := some ⟨some cand, now⟩ })
      ∧ (cand.map (fun c => c.id)).toFinset
        = ((catsOf sd).map (fun c => c.id)).toFinset) := by
  intro cand now s sd hs
  refine ⟨?_, ?_, ?_⟩
  · intro i hfound
    rw [reorderCategories_unfolded cand now s sd hs, hfound]
  · intro i hnone hfound
    rw [reorderCategories_unfolded cand now s sd hs, hnone, hfound]
  · intro hnone hnone2
    constructor
    · rw [reorderCategories_unfolded cand now s sd hs, hnone, hnone2]
    · have hforth := List.find?_eq_none.mp hnone2
      have hback := List.find?_eq_none.mp hnone
      ext x
      simp only [List.mem_toFinset]
      constructor
      · intro hx
        have := hforth x hx
        simpa using this
      · intro hx
        have := hback x hx
        simpa using this

/-- Witness for `reorderCategories_id_set_check`: reversing a two-entry
list succeeds and preserves the id set; offering only one of the two
entries is rejected with the missing-id error. -/
theorem reorderCategories_id_set_check_witness :
    reorderCategories [⟨"b", "B"⟩, ⟨"a", "A"⟩] true 7
        ⟨some ⟨some [⟨"a", "A"⟩, ⟨"b", "B"⟩], 0⟩, []⟩
      = .ok (true, ⟨some ⟨some [⟨"b", "B"⟩, ⟨"a", "A"⟩], 7⟩, []⟩)
    ∧ reorderCategories [⟨"a", "A"⟩] true 7
        ⟨some ⟨some [⟨"a", "A"⟩, ⟨"b", "B"⟩], 0⟩, []⟩
      = .error (wrapReorder (missingIdMsg "b")) := by
  have h := reorderCategories_id_set_check [⟨"b", "B"⟩, ⟨"a", "A"⟩] 7
    ⟨some ⟨some [⟨"a", "A"⟩, ⟨"b", "B"⟩], 0⟩, []⟩ ⟨some [⟨"a", "A"⟩, ⟨"b", "B"⟩], 0⟩ rfl
  have h2 := reorderCategories_id_set_check [⟨"a", "A"⟩] 7
    ⟨some ⟨some [⟨"a", "A"⟩, ⟨"b", "B"⟩], 0⟩, []⟩ ⟨some [⟨"a", "A"⟩, ⟨"b", "B"⟩], 0⟩ rfl
  refine ⟨?_, h2.1 "b" rfl⟩
  have e := (h.2.2 rfl rfl).1
  rw [e]


/-- Unfolding lemma: `deleteCategory` on an admin call, a non-system id
and an existing settings document is exactly its locate-then-commit
match. -/
theorem deleteCategory_unfolded :
    ∀ (cid : String) (now : Int) (s : CatState) (sd : SettingsDoc),
    s.settings = some sd →
    isSystemId cid = false →
    deleteCategory cid true now s
      = (match (catsOf sd).find? (fun c => c.id == cid) with
        | none => .error (wrapDelete (catNotFoundMsg cid))
        | some catToDelete =>
          .ok (true,
            { settings := some ⟨some (arrayRemove (catsOf sd) catToDelete), now⟩,
              posts := s.posts.map (fun kp =>
                if kp.2.category == cid then
                  (kp.1, { kp.2 with category := "general", updatedAt := now })
                else kp) })) := by
  intro cid now s sd hs hsys
  unfold deleteCategory
  rw [hs, hsys]
  rfl

/-- Helper for the referential-integrity part of the cascade: if every
post referenced a stored category id and the fallback id `general` is
stored, then after rewriting the posts matching the deleted id `cid` to
`general` every post references an id surviving `arrayRemove`. -/
theorem cascade_keeps_references (cats : List CategoryItem)
    (catDel : CategoryItem) (cid : String) (now : Int)
    (posts : List (String × PostStored))
    (hid : catDel.id = cid) (hne : cid ≠ "general")
    (hinv : ∀ kp ∈ posts, kp.2.category ∈ cats.map (fun c => c.id))
    (hgen : "general" ∈ cats.map (fun c => c.id)) :
    ∀ kp' ∈ posts.map (fun kp =>
        if kp.2.category == cid then
          (kp.1, { kp.2 with category := "general", updatedAt := now })
        else kp),
      kp'.2.category ∈ (arrayRemove cats catDel).map (fun c => c.id) := by
  have keep : ∀ c ∈ cats, c.id ≠ cid →
      c.id ∈ (arrayRemove cats catDel).map (fun c => c.id) := by
    intro c hcmem hcne
    have hcneq : c ≠ catDel := by
      intro h
      rw [h] at hcne
      exact hcne hid
    rw [List.mem_map]
    refine ⟨c, ?_, rfl⟩
    rw [arrayRemove, List.mem_filter]
    exact ⟨hcmem, by simpa using hcneq⟩
  intro kp' hmem
  simp only [List.mem_map] at hmem
  obtain ⟨kp, hkp, rfl⟩ := hmem
  cases hc : kp.2.category == cid
  · simp only [hc, Bool.false_eq_true, if_false]
    have hkpne : kp.2.category ≠ cid := by simpa using hc
    obtain ⟨c, hcm, hcid⟩ := List.mem_map.mp (hinv kp hkp)
    have := keep c hcm (by rw [hcid]; exact hkpne)
    rw [hcid] at this
    exact this
  · simp only [hc, if_true]
    obtain ⟨c, hcm, hcid⟩ := List.mem_map.mp hgen
    have := keep c hcm (by rw [hcid]; intro h; exact hne h.symm)
    rw [hcid] at this
    exact this

/-- Claim C1: on an admin call, for an existing non-system category id,
`deleteCategory` commits — in one transaction, so the functional model
yields both effects in a single new state and an error yields none —
(a) the rewrite of every post referencing the id to the fallback
`general` with a bumped `updatedAt`, and (b) the removal of the located
category entry; and if beforehand every post referenced a stored id and
`general` was stored, afterwards every post still references a stored
id. -/
theorem deleteCategory_cascade :
    ∀ (cid : String) (now : Int) (s : CatState) (sd : SettingsDoc)
      (catDel : CategoryItem),
    s.settings = some sd →
    isSystemId cid = false →
    (catsOf sd).find? (fun c => c.id == cid) = some catDel →
    deleteCategory cid true now s
      = .ok (true,
          { settings := some ⟨some (arrayRemove (catsOf sd) catDel), now⟩,
            posts := s.posts.map (fun kp =>
              if kp.2.category == cid then
                (kp.1, { kp.2 with category := "general", updatedAt := now })
              else kp) })
    ∧ ((∀ kp ∈ s.posts, kp.2.category ∈ (catsOf sd).map (fun c => c.id)) →
      "general" ∈ (catsOf sd).map (fun c => c.id) →
      ∀ kp' ∈ s.posts.map (fun kp =>
          if kp.2.category == cid then
            (kp.1, { kp.2 with category := "general", updatedAt := now })
          else kp),
        kp'.2.category ∈ (arrayRemove (catsOf sd) catDel).map (fun c => c.id)) := by
  intro cid now s sd catDel hs hsys hfind
  have hid : catDel.id = cid := by
    have := List.find?_some hfind
    simpa using this
  have hne : cid ≠ "general" := by
    intro h
    rw [h] at hsys
    simp [isSystemId] at hsys
  constructor
  · rw [deleteCategory_unfolded cid now s sd hs hsys, hfind]
  · intro hinv hgen
    exact cascade_keeps_references (catsOf sd) catDel cid now s.posts hid hne hinv hgen

/-- Witness for `deleteCategory_cascade`: deleting `x` from a two-entry
list moves the one post referencing `x` to `general` and removes the
entry, leaving every post on a stored id. -/
theorem deleteCategory_cascade_witness :
    deleteCategory "x" true 9
        ⟨some ⟨some [⟨"general", "G"⟩, ⟨"x", "X"⟩], 0⟩,
          [("p1", ⟨"t", "c", "x", "a", "a", [], 0, 0, 0, 0⟩),
           ("p2", ⟨"t", "c", "general", "a", "a", [], 0, 0, 0, 0⟩)]⟩
      = .ok (true,
          ⟨some ⟨some [⟨"general", "G"⟩], 9⟩,
            [("p1", ⟨"t", "c", "general", "a", "a", [], 0, 9, 0, 0⟩),
             ("p2", ⟨"t", "c", "general", "a", "a", [], 0, 0, 0, 0⟩)]⟩) := by
  have h := deleteCategory_cascade "x" 9
    ⟨some ⟨some [⟨"general", "G"⟩, ⟨"x", "X"⟩], 0⟩,
      [("p1", ⟨"t", "c", "x", "a", "a", [], 0, 0, 0, 0⟩),
       ("p2", ⟨"t", "c", "general", "a", "a", [], 0, 0, 0, 0⟩)]⟩
    ⟨some [⟨"general", "G"⟩, ⟨"x", "X"⟩], 0⟩ ⟨"x", "X"⟩ rfl rfl rfl
  rw [h.1]
  rfl


/-- Whether an attempt outcome is a thrown error that is *not* an
index-required error (the transient class, which the loops retry). -/
def failTransient {α : Type} : Attempt α → Bool
  | .ok _ => false
  | .fail e => !isIndexError e

/-- Full three-attempt unfolding of the plain retry loop. -/
theorem runPlain_three {α : Type} (msg : String) (o : Nat → Attempt α) :
    runPlain msg o 3 0 []
      = (match o 1 with
        | .ok v => ⟨.ok v, 1, []⟩
        | .fail _ =>
          match o 2 with
          | .ok v => ⟨.ok v, 2, [1000]⟩
          | .fail _ =>
            match o 3 with
            | .ok v => ⟨.ok v, 3, [1000, 2000]⟩
            | .fail _ => ⟨.error msg, 3, [1000, 2000]⟩) := by
  cases h1 : o 1 <;> cases h2 : o 2 <;> cases h3 : o 3 <;>
    simp [runPlain, h1, h2, h3, MAX_RETRY_COUNT, delayMs]

/-- Full three-attempt unfolding of the index-aware retry loop. -/
theorem runIndexed_three {α : Type} (msg : String) (w : String → String)
    (o : Nat → Attempt α) :
    runIndexed msg w o 3 0 []
      = (match o 1 with
        | .ok v => ⟨.ok v, 1, []⟩
        | .fail e1 =>
          if isIndexError e1 then ⟨.error (w (indexMessage e1)), 1, []⟩
          else
            match o 2 with
            | .ok v => ⟨.ok v, 2, [1000]⟩
            | .fail e2 =>
              if isIndexError e2 then ⟨.error (w (indexMessage e2)), 2, [1000]⟩
              else
                match o 3 with
                | .ok v => ⟨.ok v, 3, [1000, 2000]⟩
                | .fail e3 =>
                  if isIndexError e3 then
                    ⟨.error (w (indexMessage e3)), 3, [1000, 2000]⟩
                  else ⟨.error msg, 3, [1000, 2000]⟩) := by
  cases h1 : o 1 <;> cases h2 : o 2 <;> cases h3 : o 3 <;>
    simp [runIndexed, h1, h2, h3, MAX_RETRY_COUNT, delayMs]

/-- The plain loop makes at most three attempts and its sleep list is
exactly the backoff `2^(k-1)` seconds for each completed attempt `k`
followed by another. -/
theorem runPlain_budget {α : Type} (msg : String) (o : Nat → Attempt α) :
    (runPlain msg o 3 0 []).attempts ≤ 3
    ∧ (runPlain msg o 3 0 []).sleeps
      = (List.range ((runPlain msg o 3 0 []).attempts - 1)).map
          (fun k => 2 ^ k * 1000) := by
  rw [runPlain_three]
  rcases h1 : o 1 with v1 | e1 <;> rcases h2 : o 2 with v2 | e2 <;>
    rcases h3 : o 3 with v3 | e3 <;>
    exact ⟨by norm_num, by simp [List.range_succ]⟩

/-- When every attempt of the plain loop fails, the loop stops after the
third attempt with the generic message, having slept 1 s then 2 s. -/
theorem runPlain_exhaust {α : Type} (msg : String) (o : Nat → Attempt α)
    (hall : ∀ a, 1 ≤ a → a ≤ 3 → isFail (o a) = true) :
    runPlain msg o 3 0 [] = ⟨.error msg, 3, [1000, 2000]⟩ := by
  rw [runPlain_three]
  have h1 := hall 1 (by norm_num) (by norm_num)
  have h2 := hall 2 (by norm_num) (by norm_num)
  have h3 := hall 3 (by norm_num) (by norm_num)
  rcases ho1 : o 1 with v1 | e1
  · rw [ho1] at h1; simp [isFail] at h1
  · rcases ho2 : o 2 with v2 | e2
    · rw [ho2] at h2; simp [isFail] at h2
    · rcases ho3 : o 3 with v3 | e3
      · rw [ho3] at h3; simp [isFail] at h3
      · simp [ho1, ho2, ho3]

/-- The index-aware loop makes at most three attempts with the same
backoff sleep pattern. -/
theorem runIndexed_budget {α : Type} (msg : String) (w : String → String)
    (o : Nat → Attempt α) :
    (runIndexed msg w o 3 0 []).attempts ≤ 3
    ∧ (runIndexed msg w o 3 0 []).sleeps
      = (List.range ((runIndexed msg w o 3 0 []).attempts - 1)).map
          (fun k => 2 ^ k * 1000) := by
  rw [runIndexed_three]
  rcases h1 : o 1 with v1 | e1 <;> rcases h2 : o 2 with v2 | e2 <;>
    rcases h3 : o 3 with v3 | e3 <;>
    refine ⟨?_, ?_⟩ <;> (try simp only []) <;> (try split_ifs) <;>
    simp [List.range_succ]

/-- When every attempt of the index-aware loop fails transiently, the
loop stops after the third attempt with the generic message. -/
theorem runIndexed_exhaust {α : Type} (msg : String) (w : String → String)
    (o : Nat → Attempt α)
    (hall : ∀ a, 1 ≤ a → a ≤ 3 → failTransient (o a) = true) :
    runIndexed msg w o 3 0 [] = ⟨.error msg, 3, [1000, 2000]⟩ := by
  rw [runIndexed_three]
  have h1 := hall 1 (by norm_num) (by norm_num)
  have h2 := hall 2 (by norm_num) (by norm_num)
  have h3 := hall 3 (by norm_num) (by norm_num)
  rcases ho1 : o 1 with v1 | e1
  · rw [ho1] at h1; simp [failTransient] at h1
  · rw [ho1] at h1
    simp only [failTransient, Bool.not_eq_true'] at h1
    rcases ho2 : o 2 with v2 | e2
    · rw [ho2] at h2; simp [failTransient] at h2
    · rw [ho2] at h2
      simp only [failTransient, Bool.not_eq_true'] at h2
      rcases ho3 : o 3 with v3 | e3
      · rw [ho3] at h3; simp [failTransient] at h3
      · rw [ho3] at h3
        simp only [failTransient, Bool.not_eq_true'] at h3
        simp [h1, h2, h3]

/-- When attempt `a` of the index-aware loop raises an index-required
error (all earlier attempts having failed transiently), the loop stops
at attempt `a` with the wrapped index message and performs no further
sleep. -/
theorem runIndexed_index_stop {α : Type} (msg : String) (w : String → String)
    (o : Nat → Attempt α) (a : Nat) (e : QueryError)
    (ha1 : 1 ≤ a) (ha3 : a ≤ 3) (hae : o a = .fail e)
    (hidx : isIndexError e = true)
    (hprev : ∀ b, 1 ≤ b → b < a → failTransient (o b) = true) :
    runIndexed msg w o 3 0 []
      = ⟨.error (w (indexMessage e)), a,
          (List.range (a - 1)).map (fun k => 2 ^ k * 1000)⟩ := by
  rw [runIndexed_three]
  interval_cases a
  · simp [hae, hidx]
  · have hb1 := hprev 1 (by norm_num) (by norm_num)
    rcases ho1 : o 1 with v1 | e1
    · rw [ho1] at hb1; simp [failTransient] at hb1
    · rw [ho1] at hb1
      simp only [failTransient, Bool.not_eq_true'] at hb1
      simp [hb1, hae, hidx, List.range_succ]
  · have hb1 := hprev 1 (by norm_num) (by norm_num)
    have hb2 := hprev 2 (by norm_num) (by norm_num)
    rcases ho1 : o 1 with v1 | e1
    · rw [ho1] at hb1; simp [failTransient] at hb1
    · rw [ho1] at hb1
      simp only [failTransient, Bool.not_eq_true'] at hb1
      rcases ho2 : o 2 with v2 | e2
      · rw [ho2] at hb2; simp [failTransient] at hb2
      · rw [ho2] at hb2
        simp only [failTransient, Bool.not_eq_true'] at hb2
        simp [hb1, hb2, hae, hidx, List.range_succ]


/-- Claim C5: every reader (`fetchPosts`, `fetchPostById`,
`fetchPostsByCategory` on a real category, `fetchPostsByTag`) attempts
the query at most 3 times, sleeping `2^(attempt-1)` seconds (in ms:
1000, 2000) between consecutive attempts and never after the last; when
every attempt fails (transiently, for the index-aware readers) the call
ends with that reader's generic try-again message, which never embeds
the underlying error; and for the two compound-query readers an attempt
failing with an index-required error ends the call at that very attempt
— no further attempt, no further sleep — with the distinct index
message carrying the console link extracted from the store's error. -/
theorem fetch_retry_policy :
    ∀ (α : Type) (o oAll oc ot : Nat → Attempt α)
      (oi : Nat → Attempt (Option α)) (cat tag : String),
    cat ≠ "" → cat ≠ "all" →
    ((fetchPosts o).attempts ≤ 3
      ∧ (fetchPosts o).sleeps
        = (List.range ((fetchPosts o).attempts - 1)).map (fun k => 2 ^ k * 1000)
      ∧ ((∀ a, 1 ≤ a → a ≤ 3 → isFail (o a) = true) →
        fetchPosts o = ⟨.error FETCH_POSTS_FAIL, 3, [1000, 2000]⟩))
    ∧ ((fetchPostById oi).attempts ≤ 3
      ∧ (fetchPostById oi).sleeps
        = (List.range ((fetchPostById oi).attempts - 1)).map (fun k => 2 ^ k * 1000)
      ∧ ((∀ a, 1 ≤ a → a ≤ 3 → isFail (oi a) = true) →
        fetchPostById oi = ⟨.error FETCH_BYID_FAIL, 3, [1000, 2000]⟩))
    ∧ ((fetchPostsByCategory cat oAll oc).attempts ≤ 3
      ∧ (fetchPostsByCategory cat oAll oc).sleeps
        = (List.range ((fetchPostsByCategory cat oAll oc).attempts - 1)).map
            (fun k => 2 ^ k * 1000)
      ∧ ((∀ a, 1 ≤ a → a ≤ 3 → failTransient (oc a) = true) →
        fetchPostsByCategory cat oAll oc
          = ⟨.error (fetchByCategoryFail cat), 3, [1000, 2000]⟩)
      ∧ (∀ a e, 1 ≤ a → a ≤ 3 → oc a = .fail e → isIndexError e = true →
        (∀ b, 1 ≤ b → b < a → failTransient (oc b) = true) →
        fetchPostsByCategory cat oAll oc
          = ⟨.error (byCategoryIdxWrap cat (indexMessage e)), a,
              (List.range (a - 1)).map (fun k => 2 ^ k * 1000)⟩))
    ∧ ((fetchPostsByTag tag ot).attempts ≤ 3
      ∧ (fetchPostsByTag tag ot).sleeps
        = (List.range ((fetchPostsByTag tag ot).attempts - 1)).map
            (fun k => 2 ^ k * 1000)
      ∧ ((∀ a, 1 ≤ a → a ≤ 3 → failTransient (ot a) = true) →
        fetchPostsByTag tag ot = ⟨.error (fetchByTagFail tag), 3, [1000, 2000]⟩)
      ∧ (∀ a e, 1 ≤ a → a ≤ 3 → ot a = .fail e → isIndexError e = true →
        (∀ b, 1 ≤ b → b < a → failTransient (ot b) = true) →
        fetchPostsByTag tag ot
          = ⟨.error (byTagIdxWrap tag (indexMessage e)), a,
              (List.range (a - 1)).map (fun k => 2 ^ k * 1000)⟩)) := by
  intro α o oAll oc ot oi cat tag hc1 hc2
  have hby : fetchPostsByCategory cat oAll oc
      = runIndexed (fetchByCategoryFail cat) (byCategoryIdxWrap cat) oc 3 0 [] := by
    simp [fetchPostsByCategory, hc1, hc2, MAX_RETRY_COUNT]
  refine ⟨⟨(runPlain_budget _ o).1, (runPlain_budget _ o).2, runPlain_exhaust _ o⟩,
    ⟨(runPlain_budget _ oi).1, (runPlain_budget _ oi).2, runPlain_exhaust _ oi⟩,
    ?_, ?_⟩
  · rw [hby]
    exact ⟨(runIndexed_budget _ _ oc).1, (runIndexed_budget _ _ oc).2,
      runIndexed_exhaust _ _ oc,
      fun a e ha1 ha3 hae hidx hprev =>
        runIndexed_index_stop _ _ oc a e ha1 ha3 hae hidx hprev⟩
  · exact ⟨(runIndexed_budget _ _ ot).1, (runIndexed_budget _ _ ot).2,
      runIndexed_exhaust _ _ ot,
      fun a e ha1 ha3 hae hidx hprev =>
        runIndexed_index_stop _ _ ot a e ha1 ha3 hae hidx hprev⟩

/-- Witness for `fetch_retry_policy`: with every attempt failing
transiently, `fetchPosts` ends after 3 attempts with the generic message
having slept 1 s then 2 s; with the first attempt reporting a
failed-precondition, `fetchPostsByCategory "tech"` stops immediately
with the index message, one attempt, no sleep. -/
theorem fetch_retry_policy_witness :
    (fetchPosts (fun _ => Attempt.fail ⟨none, "boom"⟩) : RunResult Nat)
      = ⟨.error FETCH_POSTS_FAIL, 3, [1000, 2000]⟩
    ∧ (fetchPostsByCategory "tech" (fun _ => Attempt.fail ⟨none, "boom"⟩)
        (fun _ => Attempt.fail ⟨some "failed-precondition", "m"⟩) : RunResult Nat)
      = ⟨.error (byCategoryIdxWrap "tech"
          (indexMessage ⟨some "failed-precondition", "m"⟩)), 1, []⟩ := by
  have h := fetch_retry_policy Nat (fun _ => Attempt.fail ⟨none, "boom"⟩)
    (fun _ => Attempt.fail ⟨none, "boom"⟩)
    (fun _ => Attempt.fail ⟨some "failed-precondition", "m"⟩)
    (fun _ => Attempt.fail ⟨none, "boom"⟩)
    (fun _ => Attempt.fail ⟨none, "boom"⟩)
    "tech" "t" (by decide) (by decide)
  constructor
  · exact h.1.2.2 (fun a h1 h2 => rfl)
  · have h4 := h.2.2.1.2.2.2 1 ⟨some "failed-precondition", "m"⟩
      (by norm_num) (by norm_num) rfl (by decide)
      (by intro b hb1 hblt; omega)
    simpa using h4


end MacBoard
